import Mathlib

/-!
Shallow embedding of the player-statistics route handlers of
`app/routes/players.py` (roster listing, career/season stats, advanced
stats, awards), together with proofs of the behavioural properties the
specification states about them.

Tabular data is modelled as a `DataFrame`: an explicit list of column
names plus rows given as association lists from column name to value.
Numeric cell values are rationals; Python/pandas `round(x, 1)` is
modelled as round-half-to-even at one decimal place on rationals.
Fallible handlers return `Except PyErr`; `PyErr` covers the
`HTTPException`s the code raises as well as the runtime errors
(`KeyError`, `ValueError`, `AttributeError`) that the Python code can
produce on its own.
-/

/-- A cell value of a statistical table: a number or a string. -/
inductive Val where
  | num : ℚ → Val
  | str : String → Val
deriving DecidableEq, Repr

/-- One row of a table: an association list from column name to value. -/
abbrev Row := List (String × Val)

/-- Errors a route handler can surface: `HTTPException(status, detail)`
raised by the code itself, or a Python runtime error. -/
inductive PyErr where
  | http : Nat → String → PyErr
  | keyError : String → PyErr
  | valueError : String → PyErr
  | attributeError : String → PyErr
deriving DecidableEq, Repr

/-- Read a column of a row; pandas rows always carry every column, so a
missing key defaults to `0` (never exercised on well-formed frames). -/
def rowGet : Row → String → Val
  | [], _ => Val.num 0
  | (k', v') :: rest, k => if k = k' then v' else rowGet rest k

/-- First value stored under a key, `none` when the key is absent.  Used
to read the emitted JSON records. -/
def rowFind : Row → String → Option Val
  | [], _ => none
  | (k', v') :: rest, k => if k = k' then some v' else rowFind rest k

/-- Column assignment within one row: overwrite the existing entry (as
`df[col] = series` does in pandas) or append a new one. -/
def rowSet : Row → String → Val → Row
  | [], k, v => [(k, v)]
  | (k', v') :: rest, k, v =>
      if k' = k then (k, v) :: rest else (k', v') :: rowSet rest k v

/-- A table: ordered column names and rows. -/
structure DataFrame where
  cols : List String
  rows : List Row
deriving DecidableEq, Repr

/-- Lower-casing of one character, as Python `str.lower` acts on the
ASCII column names and search strings these routes handle. -/
def charLower (c : Char) : Char :=
  if 65 ≤ c.toNat ∧ c.toNat ≤ 90 then Char.ofNat (c.toNat + 32) else c

/-- Lower-casing of a string. -/
def strLower (s : String) : String :=
  ⟨s.data.map charLower⟩

/-- `df.columns = df.columns.str.lower()`. -/
def lowerCols (df : DataFrame) : DataFrame :=
  ⟨df.cols.map strLower, df.rows.map (fun r => r.map (fun e => (strLower e.1, e.2)))⟩

/-- Numeric reading of a cell (string cells count as `0`). -/
def toQ : Val → ℚ
  | Val.num q => q
  | Val.str _ => 0

/-- `df[c].sum()` over all rows. -/
def colSum (df : DataFrame) (c : String) : ℚ :=
  (df.rows.map (fun r => toQ (rowGet r c))).sum

/-- Whether the pattern occurs at the head of the character list. -/
def startsWithChars : List Char → List Char → Bool
  | [], _ => true
  | _ :: _, [] => false
  | p :: ps, c :: cs => decide (p = c) && startsWithChars ps cs

/-- Whether the pattern occurs anywhere in the character list. -/
def occursIn (pat : List Char) : List Char → Bool
  | [] => startsWithChars pat []
  | c :: cs => startsWithChars pat (c :: cs) || occursIn pat cs

/-- Python `pat in s` substring containment. -/
def strContains (s pat : String) : Bool :=
  occursIn pat.toList s.toList

/-- Round-half-to-even to an integer, as Python `round` and numpy do. -/
def roundHalfEven (q : ℚ) : ℤ :=
  if q - ⌊q⌋ < 1/2 then ⌊q⌋
  else if (1 : ℚ)/2 < q - ⌊q⌋ then ⌊q⌋ + 1
  else if ⌊q⌋ % 2 = 0 then ⌊q⌋ else ⌊q⌋ + 1

/-- `round(x, 1)`: round-half-to-even at one decimal place. -/
def round1 (q : ℚ) : ℚ :=
  (roundHalfEven (q * 10) : ℚ) / 10

/-- Python `x or default` for an optional string parameter. -/
def pyOrStrD (o : Option String) (d : String) : String :=
  match o with
  | none => d
  | some s => if s = "" then d else s

/-- Python `x or default` for a plain string. -/
def pyOrStr (s d : String) : String :=
  if s = "" then d else s

/-! ## Roster pipeline (`get_players`) -/

/-- A roster entry as consumed by the roster route. -/
structure Player where
  id : Nat
  full_name : String
deriving DecidableEq, Repr

/-- `GET /players`: source selection by `is_active`, case-insensitive
name filter, truthiness-guarded `limit` truncation, then
truthiness-guarded pagination.  The three source lists stand for the
upstream calls `get_active_players`, `get_inactive_players` and
`get_all_players`. -/
def get_players (active_players inactive_players all_players : List Player)
    (is_active : Option Bool) (player_name : Option String)
    (limit : Option Nat) (page : Option Nat) (pageSize : Nat) : List Player :=
  let players :=
    match is_active with
    | some true => active_players
    | some false => inactive_players
    | none => all_players
  let players :=
    match player_name with
    | none => players
    | some q =>
        if q = "" then players
        else players.filter (fun p => strContains (strLower p.full_name) (strLower q))
  let players :=
    match limit with
    | none => players
    | some l => if l = 0 then players else players.take l
  match page with
  | none => players
  | some p => if p = 0 then players else (players.drop ((p - 1) * pageSize)).take pageSize

/-! ## Career/season stats pipeline (`get_player_career_stats`) -/

/-- The four tables returned by `get_player_carrer_totals`. -/
structure PlayerTotals where
  career_totals_post_season : DataFrame
  career_totals_regular_season : DataFrame
  season_totals_post_season : DataFrame
  season_totals_regular_season : DataFrame
deriving DecidableEq, Repr

/-- Dataset selection, lines 94-103 of the route: `season != "All"`
selects a career-totals table, otherwise a season-totals table, with
`season_type == "Playoffs"` picking the post-season variant. -/
def selectDataset (pt : PlayerTotals) (season season_type : Option String) : DataFrame :=
  if season ≠ some "All" then
    if season_type = some "Playoffs" then pt.career_totals_post_season
    else pt.career_totals_regular_season
  else
    if season_type = some "Playoffs" then pt.season_totals_post_season
    else pt.season_totals_regular_season

/-- The `if season and season != "All"` filter block: keep rows whose
`season_id` equals the requested season, 404 when none survive; reading
a missing `season_id` column is a `KeyError` as in pandas. -/
def seasonFilter (df : DataFrame) (season : Option String) : Except PyErr DataFrame :=
  match season with
  | none => Except.ok df
  | some s =>
      if s = "" ∨ s = "All" then Except.ok df
      else if "season_id" ∈ df.cols then
        if df.rows.filter (fun r => decide (rowGet r "season_id" = Val.str s)) = [] then
          Except.error (PyErr.http 404 ("No season stats found for this player in season " ++ s))
        else
          Except.ok ⟨df.cols, df.rows.filter (fun r => decide (rowGet r "season_id" = Val.str s))⟩
      else Except.error (PyErr.keyError "season_id")

/-- The fixed base-stat set for per-game derivation. -/
def statsColumns : List String :=
  ["pts", "reb", "ast", "stl", "blk", "tov", "fgm", "fga", "fg3m", "fg3a", "ftm", "fta"]

/-- `(df[stat] / df["gp"]).round(1)` for one row. -/
def perGameVal (stat : String) (r : Row) : Val :=
  Val.num (round1 (toQ (rowGet r stat) / toQ (rowGet r "gp")))

/-- `df[name] = f(row)` column assignment on a whole frame. -/
def setCol (d : DataFrame) (name : String) (f : Row → Val) : DataFrame :=
  ⟨if name ∈ d.cols then d.cols else d.cols ++ [name],
   d.rows.map (fun r => rowSet r name (f r))⟩

/-- One iteration of the per-game loop: derive `{stat}_per_game` when
the base column is present. -/
def deriveStep (d : DataFrame) (stat : String) : DataFrame :=
  if stat ∈ d.cols then setCol d (stat ++ "_per_game") (perGameVal stat) else d

/-- The whole per-game derivation loop over `statsColumns`. -/
def derive (df : DataFrame) : DataFrame :=
  List.foldl deriveStep df statsColumns

/-- `df.iloc[(page-1)*page_size : (page-1)*page_size + page_size]`,
applied only when `page` is truthy. -/
def paginate (df : DataFrame) (page : Option Nat) (psz : Nat) : DataFrame :=
  match page with
  | none => df
  | some p => if p = 0 then df else ⟨df.cols, (df.rows.drop ((p - 1) * psz)).take psz⟩

/-- `df.drop(columns=["player_id"]).to_dict(orient="records")` for one
row: emit every remaining column in order. -/
def recOf (cols : List String) (r : Row) : Row :=
  (cols.filter (fun c => decide (c ≠ "player_id"))).map (fun c => (c, rowGet r c))

/-- The career-stats JSON body: `season_type`, the dynamic list key
(`"totals"` or `"seasons"`), and the emitted records. -/
structure CareerResp where
  season_type : String
  key : String
  records : List Row
deriving DecidableEq, Repr

/-- The tail of the career route after the season filter: zero-games
guard, per-game derivation, pagination, `player_id` drop, emission. -/
def careerAfterFilter (stn key : String) (page : Option Nat) (psz : Nat)
    (df2 : DataFrame) : Except PyErr CareerResp :=
  if "gp" ∉ df2.cols ∨ colSum df2 "gp" = 0 then
    Except.ok ⟨stn, key, []⟩
  else if "player_id" ∈ (paginate (derive df2) page psz).cols then
    Except.ok ⟨stn, key,
      (paginate (derive df2) page psz).rows.map (recOf (paginate (derive df2) page psz).cols)⟩
  else Except.error (PyErr.keyError "player_id")

/-- `GET /players/stats/career/{player_id}`.  The upstream result of
`get_player_carrer_totals(player_id)` is passed in as `pt`. -/
def get_player_career_stats (player_id : String) (season_type season : Option String)
    (page : Option Nat) (page_size : Nat) (pt : PlayerTotals) : Except PyErr CareerResp :=
  if player_id = "" then Except.error (PyErr.http 400 "Param player_id is required")
  else
    match seasonFilter (lowerCols (selectDataset pt season season_type)) season with
    | Except.error e => Except.error e
    | Except.ok df2 =>
        careerAfterFilter (pyOrStrD season_type "Regular Season")
          (if season ≠ some "All" then "totals" else "seasons") page page_size df2

/-! ## Awards pipeline (`fetch_player_awards`) -/

/-- `award.get("description", "")`. -/
def awardDescription (a : Row) : String :=
  match rowFind a "description" with
  | some (Val.str s) => s
  | _ => ""

/-- The priority categorization of an award description. -/
def awardType (description : String) : String :=
  if strContains description "All-Defensive" then "All-Defensive Team"
  else if strContains description "All-Star" then "NBA All-Star"
  else if strContains description "Player of the Week" then "NBA Player of the Week"
  else if strContains description "Gold Medal" then "Olympic Gold Medal"
  else description

/-- `award_counts[award_type] += 1` on an insertion-ordered counter. -/
def bumpCount : List (String × Nat) → String → List (String × Nat)
  | [], k => [(k, 1)]
  | (k', n) :: rest, k =>
      if k' = k then (k, n + 1) :: rest else (k', n) :: bumpCount rest k

/-- Category counts accumulated over the raw award list. -/
def awardCounts (raw : List Row) : List (String × Nat) :=
  raw.foldl (fun acc a => bumpCount acc (awardType (awardDescription a))) []

/-- Code-point comparison of character lists, as Python string `<`. -/
def charsLt : List Char → List Char → Bool
  | [], [] => false
  | [], _ :: _ => true
  | _ :: _, [] => false
  | a :: as, b :: bs =>
      decide (a.toNat < b.toNat) || (decide (a.toNat = b.toNat) && charsLt as bs)

/-- Python string `<` on code points. -/
def strLtB (a b : String) : Bool :=
  charsLt a.toList b.toList

/-- The sort key `lambda x: (-x[1], x[0])`: strictly before when the
count is larger, or equal counts and lexicographically smaller name. -/
def pairLt (a b : String × Nat) : Bool :=
  decide (b.2 < a.2) || (decide (a.2 = b.2) && strLtB a.1 b.1)

/-- Ordered insertion for the summary sort. -/
def insSorted (x : String × Nat) : List (String × Nat) → List (String × Nat)
  | [] => [x]
  | y :: ys => if pairLt x y then x :: y :: ys else y :: insSorted x ys

/-- `sorted(award_counts.items(), key=lambda x: (-x[1], x[0]))`. -/
def sortPairs (l : List (String × Nat)) : List (String × Nat) :=
  l.foldr insSorted []

/-- `" | ".join(f"{count} {award}" ...)` over the sorted counts. -/
def renderSummary (counts : List (String × Nat)) : String :=
  String.intercalate " | " ((sortPairs counts).map (fun p => Nat.repr p.2 ++ " " ++ p.1))

/-- The summary string built from the raw award list. -/
def awardsSummary (raw : List Row) : String :=
  renderSummary (awardCounts raw)

/-- The awards JSON body: a bare summary string, or summary plus the
untouched raw records in detailed mode. -/
inductive AwardsResp where
  | plain : String → AwardsResp
  | full : String → List Row → AwardsResp
deriving DecidableEq, Repr

/-- `GET /players/player/awards`.  `player_id` is `none` when the query
parameter is absent; the upstream result of `get_player_awards` is
passed in as `raw_awards`. -/
def fetch_player_awards (player_id : Option Int) (detailed : Bool)
    (raw_awards : List Row) : Except PyErr AwardsResp :=
  if player_id = none ∨ player_id = some 0 then
    Except.error (PyErr.http 400 "Missing required parameter: player_id")
  else if raw_awards = [] then
    Except.ok (if detailed then AwardsResp.full "" [] else AwardsResp.plain "")
  else if detailed then
    Except.ok (AwardsResp.full (awardsSummary raw_awards) raw_awards)
  else
    Except.ok (AwardsResp.plain (awardsSummary raw_awards))

/-! ## Advanced/fantasy stats pipeline (`get_player_advanced_stats`) -/

/-- The value bound to `df` in the advanced route: a single frame when
`season == "All"` (from `get_player_seasons_dashboard`), otherwise the
list of frames returned by
`get_player_dashboard_by_year_over_year(...).get_data_frames()`. -/
inductive FrameOrList where
  | frame : DataFrame → FrameOrList
  | frames : List DataFrame → FrameOrList
deriving DecidableEq, Repr

/-- Evaluation of `not df or "gp" not in df.columns or df["gp"].sum() == 0`
under Python semantics: `bool()` of a pandas frame raises `ValueError`;
on a list, `not df` is emptiness, and a non-empty list reaches
`df.columns`, which raises `AttributeError`. -/
def advGuardEval : FrameOrList → Except PyErr Bool
  | FrameOrList.frame _ =>
      Except.error (PyErr.valueError "The truth value of a DataFrame is ambiguous")
  | FrameOrList.frames [] => Except.ok true
  | FrameOrList.frames (_ :: _) =>
      Except.error (PyErr.attributeError "list object has no attribute columns")

/-- Column pruning of the advanced route: drop ranking, grouping,
WNBA-fantasy and season-identifying columns. -/
def advBadCol (c : String) : Bool :=
  strContains c "_rank" || strContains c "group_set" ||
    strContains c "wnba_fantasy_pts" || strContains c "season"

/-- `df.drop(columns=[...], errors="ignore")` for the advanced route. -/
def advDropCols (df : DataFrame) : DataFrame :=
  ⟨df.cols.filter (fun c => !(advBadCol c)), df.rows⟩

/-- The advanced-stats JSON body. -/
structure AdvResp where
  player_id : Int
  per_mode : String
  season : String
  season_type : String
  stats : List Row
deriving DecidableEq, Repr

/-- `GET /players/stats/advanced/{player_id}`. -/
def get_player_advanced_stats (player_id : Int) (per_mode : String)
    (season : Option String) (season_type : String)
    (seasons_dashboard : DataFrame) (yoy_frames : List DataFrame) :
    Except PyErr AdvResp :=
  let df : FrameOrList :=
    if season = some "All" then FrameOrList.frame (lowerCols seasons_dashboard)
    else FrameOrList.frames yoy_frames
  match advGuardEval df with
  | Except.error e => Except.error e
  | Except.ok true =>
      Except.ok ⟨player_id, pyOrStr per_mode "All", pyOrStrD season "All",
        pyOrStr season_type "All", []⟩
  | Except.ok false =>
      match df with
      | FrameOrList.frame f =>
          Except.ok ⟨player_id, pyOrStr per_mode "All", pyOrStrD season "All",
            pyOrStr season_type "All",
            (advDropCols f).rows.map (fun r => (advDropCols f).cols.map (fun c => (c, rowGet r c)))⟩
      | FrameOrList.frames _ =>
          Except.error (PyErr.attributeError "list object has no attribute drop")

/-! ## Helper lemmas about rows and frames -/

theorem rowGet_rowSet_same (r : Row) (k : String) (v : Val) :
    rowGet (rowSet r k v) k = v := by
  induction r with
  | nil => simp [rowSet, rowGet]
  | cons e rest ih =>
      by_cases h : e.1 = k
      · simp [rowSet, h, rowGet]
      · simp [rowSet, h, rowGet, ih, Ne.symm h]

theorem rowGet_rowSet_ne (r : Row) (k : String) (v : Val) (k' : String)
    (h : k' ≠ k) : rowGet (rowSet r k v) k' = rowGet r k' := by
  induction r with
  | nil => simp [rowSet, rowGet, h]
  | cons e rest ih =>
      by_cases he : e.1 = k
      · simp [rowSet, he, rowGet, h]
      · simp [rowSet, he, rowGet, ih]

theorem rowFind_recOf (cols : List String) (r : Row) (k : String) :
    rowFind (recOf cols r) k =
      if k ∈ cols ∧ k ≠ "player_id" then some (rowGet r k) else none := by
  induction cols with
  | nil => simp [recOf, rowFind]
  | cons c cs ih =>
      by_cases hc : c = "player_id"
      · have hfil : recOf (c :: cs) r = recOf cs r := by
          simp [recOf, List.filter_cons, hc]
        rw [hfil, ih]
        by_cases hk : k = "player_id"
        · simp [hk]
        · by_cases hm : k ∈ cs
          · rw [if_pos ⟨hm, hk⟩, if_pos ⟨List.mem_cons_of_mem _ hm, hk⟩]
          · have h1 : k ∉ c :: cs := by
              intro hcc
              rcases List.mem_cons.mp hcc with h | h
              · exact hk (h.trans hc)
              · exact hm h
            rw [if_neg (fun h => hm h.1), if_neg (fun h => h1 h.1)]
      · have hfil : recOf (c :: cs) r = (c, rowGet r c) :: recOf cs r := by
          simp [recOf, List.filter_cons, hc]
        rw [hfil]
        by_cases hk : k = c
        · subst hk
          simp [rowFind, hc]
        · have hstep : rowFind ((c, rowGet r c) :: recOf cs r) k = rowFind (recOf cs r) k := by
            simp [rowFind, hk]
          rw [hstep, ih]
          by_cases hm : k ∈ cs
          · by_cases hpid : k = "player_id"
            · simp [hpid]
            · rw [if_pos ⟨hm, hpid⟩, if_pos ⟨List.mem_cons_of_mem _ hm, hpid⟩]
          · have h1 : k ∉ c :: cs := by
              intro hcc
              rcases List.mem_cons.mp hcc with h | h
              · exact hk h
              · exact hm h
            rw [if_neg (fun h => hm h.1), if_neg (fun h => h1 h.1)]

theorem paginate_cols (df : DataFrame) (p : Option Nat) (psz : Nat) :
    (paginate df p psz).cols = df.cols := by
  cases p with
  | none => rfl
  | some n =>
      by_cases h : n = 0 <;> simp [paginate, h]

theorem paginate_rows_subset (df : DataFrame) (p : Option Nat) (psz : Nat) :
    ∀ r ∈ (paginate df p psz).rows, r ∈ df.rows := by
  cases p with
  | none => exact fun r hr => hr
  | some n =>
      by_cases h : n = 0
      · simp [paginate, h]
      · intro r hr
        simp only [paginate, h, if_neg h] at hr
        exact List.drop_subset _ _ (List.take_subset _ _ hr)

theorem statsColumns_no_pg : ∀ s ∈ statsColumns, ∀ t ∈ statsColumns, s ≠ t ++ "_per_game" := by
  decide

theorem gp_no_pg : ∀ t ∈ statsColumns, ("gp" : String) ≠ t ++ "_per_game" := by
  decide

theorem statsColumns_pg_pairwise :
    List.Pairwise (fun a b => a ++ "_per_game" ≠ b ++ "_per_game") statsColumns := by
  decide

theorem statsColumns_pg_ne_pid : ∀ s ∈ statsColumns, s ++ "_per_game" ≠ "player_id" := by
  decide

/-- Invariant of the per-game derivation fold over an arbitrary list of
base-stat names: only `_per_game` columns are appended, a derived column
appears for every base column present, and every output row agrees with
its source row on non-derived keys while holding the rounded per-game
quotient under each derived key. -/
theorem derive_aux (l : List String) :
    ∀ d : DataFrame,
      (∀ s ∈ l, ∀ t ∈ l, s ≠ t ++ "_per_game") →
      (∀ t ∈ l, ("gp" : String) ≠ t ++ "_per_game") →
      List.Pairwise (fun a b => a ++ "_per_game" ≠ b ++ "_per_game") l →
      (∃ ex : List String, (List.foldl deriveStep d l).cols = d.cols ++ ex ∧
          ∀ x ∈ ex, ∃ t ∈ l, x = t ++ "_per_game") ∧
      (∀ s ∈ l, s ∈ d.cols → s ++ "_per_game" ∈ (List.foldl deriveStep d l).cols) ∧
      (∀ r' ∈ (List.foldl deriveStep d l).rows, ∃ r ∈ d.rows,
          (∀ k : String, (∀ t ∈ l, k ≠ t ++ "_per_game") → rowGet r' k = rowGet r k) ∧
          (∀ s ∈ l, s ∈ d.cols → rowGet r' (s ++ "_per_game") = perGameVal s r)) := by
  induction l with
  | nil =>
      intro d _ _ _
      refine ⟨⟨[], by simp, by simp⟩, by simp, ?_⟩
      intro r' hr'
      exact ⟨r', by simpa using hr', fun k _ => rfl, by simp⟩
  | cons s rest ih =>
      intro d H1 H2 H3
      have H1r : ∀ a ∈ rest, ∀ t ∈ rest, a ≠ t ++ "_per_game" :=
        fun a ha t ht => H1 a (List.mem_cons_of_mem _ ha) t (List.mem_cons_of_mem _ ht)
      have H2r : ∀ t ∈ rest, ("gp" : String) ≠ t ++ "_per_game" :=
        fun t ht => H2 t (List.mem_cons_of_mem _ ht)
      have H3r : List.Pairwise (fun a b => a ++ "_per_game" ≠ b ++ "_per_game") rest :=
        (List.pairwise_cons.mp H3).2
      have Hhead : ∀ b ∈ rest, s ++ "_per_game" ≠ b ++ "_per_game" :=
        (List.pairwise_cons.mp H3).1
      rw [List.foldl_cons]
      by_cases hs : s ∈ d.cols
      · have hstep : deriveStep d s = setCol d (s ++ "_per_game") (perGameVal s) := by
          unfold deriveStep; rw [if_pos hs]
        rw [hstep]
        obtain ⟨⟨ex, hex, hexP⟩, hB, hC⟩ :=
          ih (setCol d (s ++ "_per_game") (perGameVal s)) H1r H2r H3r
        have hd1 : ∃ e1 : List String,
            (setCol d (s ++ "_per_game") (perGameVal s)).cols = d.cols ++ e1 ∧
            ∀ x ∈ e1, x = s ++ "_per_game" := by
          by_cases hin : s ++ "_per_game" ∈ d.cols
          · exact ⟨[], by simp [setCol, hin], by simp⟩
          · exact ⟨[s ++ "_per_game"], by simp [setCol, hin], by simp⟩
        obtain ⟨e1, he1, he1P⟩ := hd1
        refine ⟨⟨e1 ++ ex, ?_, ?_⟩, ?_, ?_⟩
        · rw [hex, he1, List.append_assoc]
        · intro x hx
          rcases List.mem_append.mp hx with hx1 | hx2
          · exact ⟨s, List.mem_cons_self s rest, he1P x hx1⟩
          · obtain ⟨t, ht, hxe⟩ := hexP x hx2
            exact ⟨t, List.mem_cons_of_mem _ ht, hxe⟩
        · intro a ha hacols
          rcases List.mem_cons.mp ha with rfl | har
          · have h1 : a ++ "_per_game" ∈ (setCol d (a ++ "_per_game") (perGameVal a)).cols := by
              by_cases hin : a ++ "_per_game" ∈ d.cols <;> simp [setCol, hin]
            rw [hex]
            exact List.mem_append_left _ h1
          · apply hB a har
            rw [he1]
            exact List.mem_append_left _ hacols
        · intro r' hr'
          obtain ⟨r1, hr1, hpres1, hder1⟩ := hC r' hr'
          have hr1m : ∃ r ∈ d.rows, rowSet r (s ++ "_per_game") (perGameVal s r) = r1 := by
            simpa [setCol] using hr1
          obtain ⟨r, hr, hreq⟩ := hr1m
          refine ⟨r, hr, ?_, ?_⟩
          · intro k hk
            have hk_rest : ∀ t ∈ rest, k ≠ t ++ "_per_game" :=
              fun t ht => hk t (List.mem_cons_of_mem _ ht)
            rw [hpres1 k hk_rest, ← hreq]
            exact rowGet_rowSet_ne _ _ _ _ (hk s (List.mem_cons_self s rest))
          · intro a ha hacols
            rcases List.mem_cons.mp ha with rfl | har
            · rw [hpres1 (a ++ "_per_game") Hhead, ← hreq]
              rw [rowGet_rowSet_same]
            · have hacols1 : a ∈ (setCol d (s ++ "_per_game") (perGameVal s)).cols := by
                rw [he1]
                exact List.mem_append_left _ hacols
              rw [hder1 a har hacols1, ← hreq]
              unfold perGameVal
              rw [rowGet_rowSet_ne _ _ _ _ (H1 a ha s (List.mem_cons_self s rest))]
              rw [rowGet_rowSet_ne _ _ _ _ (H2 s (List.mem_cons_self s rest))]
      · have hstep : deriveStep d s = d := by
          unfold deriveStep; rw [if_neg hs]
        rw [hstep]
        obtain ⟨⟨ex, hex, hexP⟩, hB, hC⟩ := ih d H1r H2r H3r
        refine ⟨⟨ex, hex, ?_⟩, ?_, ?_⟩
        · intro x hx
          obtain ⟨t, ht, he⟩ := hexP x hx
          exact ⟨t, List.mem_cons_of_mem _ ht, he⟩
        · intro a ha hacols
          rcases List.mem_cons.mp ha with rfl | har
          · exact absurd hacols hs
          · exact hB a har hacols
        · intro r' hr'
          obtain ⟨r, hrr, hpres, hder⟩ := hC r' hr'
          refine ⟨r, hrr, ?_, ?_⟩
          · intro k hk
            exact hpres k (fun t ht => hk t (List.mem_cons_of_mem _ ht))
          · intro a ha hacols
            rcases List.mem_cons.mp ha with rfl | har
            · exact absurd hacols hs
            · exact hder a har hacols

/-- `derive_aux` specialized to the concrete base-stat list used by the
career route. -/
theorem derive_spec (df : DataFrame) :
    (∃ ex : List String, (derive df).cols = df.cols ++ ex ∧
        ∀ x ∈ ex, ∃ t ∈ statsColumns, x = t ++ "_per_game") ∧
    (∀ s ∈ statsColumns, s ∈ df.cols → s ++ "_per_game" ∈ (derive df).cols) ∧
    (∀ r' ∈ (derive df).rows, ∃ r ∈ df.rows,
        (∀ k : String, (∀ t ∈ statsColumns, k ≠ t ++ "_per_game") → rowGet r' k = rowGet r k) ∧
        (∀ s ∈ statsColumns, s ∈ df.cols → rowGet r' (s ++ "_per_game") = perGameVal s r)) :=
  derive_aux statsColumns df statsColumns_no_pg gp_no_pg statsColumns_pg_pairwise

/-! ## Sample data used by the witnesses -/

/-- A frame with a zero `gp` total. -/
def dfGP0 : DataFrame :=
  ⟨["player_id", "gp"], [[("player_id", Val.num 1), ("gp", Val.num 0)]]⟩

/-- Career-totals bundle whose every table is `dfGP0`. -/
def ptGP0 : PlayerTotals := ⟨dfGP0, dfGP0, dfGP0, dfGP0⟩

/-- A frame with one 2020-21 season row. -/
def dfSeasons : DataFrame :=
  ⟨["player_id", "season_id", "gp"],
   [[("player_id", Val.num 1), ("season_id", Val.str "2020-21"), ("gp", Val.num 10)]]⟩

/-- Career-totals bundle whose every table is `dfSeasons`. -/
def ptSeasons : PlayerTotals := ⟨dfSeasons, dfSeasons, dfSeasons, dfSeasons⟩

/-- A frame with 10 games and 200 points. -/
def dfStats : DataFrame :=
  ⟨["player_id", "gp", "pts"],
   [[("player_id", Val.num 1), ("gp", Val.num 10), ("pts", Val.num 200)]]⟩

/-- Career-totals bundle whose every table is `dfStats`. -/
def ptStats : PlayerTotals := ⟨dfStats, dfStats, dfStats, dfStats⟩

/-! ## Claim theorems -/

/-- C1: for every career-stats request the dataset queried follows the
branch table exactly: `season` absent or not `"All"` selects
`career_totals_post_season` under the Playoffs season type and
`career_totals_regular_season` under any other; `season = "All"`
selects `season_totals_post_season` under Playoffs and
`season_totals_regular_season` otherwise. -/
theorem c1_dataset_branch (pt : PlayerTotals) (season season_type : Option String) :
    (season ≠ some "All" → season_type = some "Playoffs" →
      selectDataset pt season season_type = pt.career_totals_post_season) ∧
    (season ≠ some "All" → season_type ≠ some "Playoffs" →
      selectDataset pt season season_type = pt.career_totals_regular_season) ∧
    (season = some "All" → season_type = some "Playoffs" →
      selectDataset pt season season_type = pt.season_totals_post_season) ∧
    (season = some "All" → season_type ≠ some "Playoffs" →
      selectDataset pt season season_type = pt.season_totals_regular_season) := by
  refine ⟨?_, ?_, ?_, ?_⟩ <;> intro h1 h2 <;> simp [selectDataset, h1, h2]

/-- Witness for C1 at concrete inputs covering all four branches. -/
theorem c1_dataset_branch_witness :
    selectDataset ptSeasons none (some "Playoffs") = ptSeasons.career_totals_post_season ∧
    selectDataset ptSeasons (some "2020-21") none = ptSeasons.career_totals_regular_season ∧
    selectDataset ptSeasons (some "All") (some "Playoffs") = ptSeasons.season_totals_post_season ∧
    selectDataset ptSeasons (some "All") (some "Regular Season") =
      ptSeasons.season_totals_regular_season :=
  ⟨(c1_dataset_branch ptSeasons none (some "Playoffs")).1 (by decide) rfl,
   (c1_dataset_branch ptSeasons (some "2020-21") none).2.1 (by decide) (by decide),
   (c1_dataset_branch ptSeasons (some "All") (some "Playoffs")).2.2.1 rfl rfl,
   (c1_dataset_branch ptSeasons (some "All") (some "Regular Season")).2.2.2 rfl (by decide)⟩

/-- C2: when, after the optional season filter, the surviving table has
no `gp` column or its `gp` values sum to zero, the career route returns
an empty stats list under key `"totals"` (`season ≠ "All"`) or
`"seasons"` (`season = "All"`), and no `_per_game` field appears in any
output record. -/
theorem c2_zero_games (pid : String) (hpid : pid ≠ "")
    (season_type season : Option String) (page : Option Nat) (psz : Nat)
    (pt : PlayerTotals) (df2 : DataFrame)
    (hfil : seasonFilter (lowerCols (selectDataset pt season season_type)) season =
      Except.ok df2)
    (hgp : "gp" ∉ df2.cols ∨ colSum df2 "gp" = 0) :
    get_player_career_stats pid season_type season page psz pt =
      Except.ok ⟨pyOrStrD season_type "Regular Season",
        (if season ≠ some "All" then "totals" else "seasons"), []⟩ ∧
    ∀ resp : CareerResp,
      get_player_career_stats pid season_type season page psz pt = Except.ok resp →
      resp.records = [] ∧
        ∀ rec ∈ resp.records, ∀ e ∈ rec, ∀ s : String, e.1 ≠ s ++ "_per_game" := by
  have h1 : get_player_career_stats pid season_type season page psz pt =
      Except.ok ⟨pyOrStrD season_type "Regular Season",
        (if season ≠ some "All" then "totals" else "seasons"), []⟩ := by
    simp only [get_player_career_stats, if_neg hpid, hfil]
    unfold careerAfterFilter
    rw [if_pos hgp]
  refine ⟨h1, ?_⟩
  intro resp hresp
  rw [h1] at hresp
  cases hresp
  exact ⟨rfl, by simp⟩

/-- Witness for C2: a one-row career-totals table with `gp = 0`. -/
theorem c2_zero_games_witness :
    colSum (lowerCols dfGP0) "gp" = 0 ∧
    get_player_career_stats "2544" none none none 10 ptGP0 =
      Except.ok ⟨"Regular Season", "totals", []⟩ :=
  ⟨by with_unfolding_all decide,
   (c2_zero_games "2544" (by decide) none none none 10 ptGP0 (lowerCols dfGP0) rfl
      (Or.inr (by with_unfolding_all decide))).1⟩

/-- C4: with a concrete season (non-empty, not `"All"`), the rows are
filtered to those whose `season_id` equals the season, and when no row
of the selected table carries that `season_id` the career route fails
with HTTP 404. -/
theorem c4_season_not_found (pid : String) (hpid : pid ≠ "")
    (season_type : Option String) (page : Option Nat) (psz : Nat)
    (pt : PlayerTotals) (s : String) (hs1 : s ≠ "") (hs2 : s ≠ "All")
    (hcol : "season_id" ∈ (lowerCols (selectDataset pt (some s) season_type)).cols)
    (hnone : ∀ r ∈ (lowerCols (selectDataset pt (some s) season_type)).rows,
        rowGet r "season_id" ≠ Val.str s) :
    (∀ df df' : DataFrame, seasonFilter df (some s) = Except.ok df' →
        df'.cols = df.cols ∧
        df'.rows = df.rows.filter (fun r => decide (rowGet r "season_id" = Val.str s))) ∧
    get_player_career_stats pid season_type (some s) page psz pt =
      Except.error (PyErr.http 404 ("No season stats found for this player in season " ++ s)) := by
  have hss : ¬(s = "" ∨ s = "All") := by
    rintro (h | h)
    · exact hs1 h
    · exact hs2 h
  constructor
  · intro df df' h
    simp only [seasonFilter] at h
    rw [if_neg hss] at h
    by_cases hc : "season_id" ∈ df.cols
    · rw [if_pos hc] at h
      by_cases hemp : df.rows.filter (fun r => decide (rowGet r "season_id" = Val.str s)) = []
      · rw [if_pos hemp] at h
        exact absurd h (by simp)
      · rw [if_neg hemp] at h
        cases h
        exact ⟨rfl, rfl⟩
    · rw [if_neg hc] at h
      exact absurd h (by simp)
  · have hfe : seasonFilter (lowerCols (selectDataset pt (some s) season_type)) (some s) =
        Except.error (PyErr.http 404 ("No season stats found for this player in season " ++ s)) := by
      simp only [seasonFilter]
      have hemp : (lowerCols (selectDataset pt (some s) season_type)).rows.filter
          (fun r => decide (rowGet r "season_id" = Val.str s)) = [] := by
        rw [List.filter_eq_nil_iff]
        intro r hr
        simpa using hnone r hr
      rw [if_neg hss, if_pos hcol, if_pos hemp]
    simp only [get_player_career_stats, if_neg hpid, hfe]

/-- Witness for C4: requesting season 1999-00 against a table whose only
row is for 2020-21. -/
theorem c4_season_not_found_witness :
    ("season_id" ∈ (lowerCols (selectDataset ptSeasons (some "1999-00") none)).cols) ∧
    get_player_career_stats "2544" none (some "1999-00") none 10 ptSeasons =
      Except.error (PyErr.http 404
        ("No season stats found for this player in season " ++ "1999-00")) :=
  ⟨by decide,
   (c4_season_not_found "2544" (by decide) none none 10 ptSeasons "1999-00" (by decide)
      (by decide) (by decide) (by decide)).2⟩

/-- Per-record per-game property of the career route tail: in every
emitted record, whenever a base stat and `gp` are present, the
`_per_game` field holds the rounded quotient. -/
theorem careerAfterFilter_records (stn key : String) (page : Option Nat) (psz : Nat)
    (df2 : DataFrame) (resp : CareerResp)
    (hok : careerAfterFilter stn key page psz df2 = Except.ok resp)
    (rec : Row) (hrec : rec ∈ resp.records)
    (stat : String) (hstat : stat ∈ statsColumns)
    (v g : ℚ) (hv : rowFind rec stat = some (Val.num v))
    (hg : rowFind rec "gp" = some (Val.num g)) :
    rowFind rec (stat ++ "_per_game") = some (Val.num (round1 (v / g))) := by
  unfold careerAfterFilter at hok
  by_cases hgp : "gp" ∉ df2.cols ∨ colSum df2 "gp" = 0
  · rw [if_pos hgp] at hok
    cases hok
    simp at hrec
  · rw [if_neg hgp] at hok
    by_cases hpid : "player_id" ∈ (paginate (derive df2) page psz).cols
    · rw [if_pos hpid] at hok
      cases hok
      obtain ⟨r', hr', hre⟩ := List.mem_map.mp hrec
      subst hre
      rw [rowFind_recOf] at hv hg ⊢
      have hvc : stat ∈ (paginate (derive df2) page psz).cols ∧ stat ≠ "player_id" := by
        by_contra hcon
        rw [if_neg hcon] at hv
        exact Option.noConfusion hv
      rw [if_pos hvc] at hv
      have hveq := Option.some.inj hv
      have hgc : ("gp" : String) ∈ (paginate (derive df2) page psz).cols ∧
          ("gp" : String) ≠ "player_id" := by
        by_contra hcon
        rw [if_neg hcon] at hg
        exact Option.noConfusion hg
      rw [if_pos hgc] at hg
      have hgeq := Option.some.inj hg
      obtain ⟨⟨ex, hex, hexP⟩, hB, hC⟩ := derive_spec df2
      have hcols : (paginate (derive df2) page psz).cols = (derive df2).cols :=
        paginate_cols _ _ _
      have hstat2 : stat ∈ df2.cols := by
        have h1 : stat ∈ (derive df2).cols := by rw [← hcols]; exact hvc.1
        rw [hex] at h1
        rcases List.mem_append.mp h1 with h | h
        · exact h
        · obtain ⟨t, ht, hst⟩ := hexP stat h
          exact absurd hst (statsColumns_no_pg stat hstat t ht)
      have hr3 : r' ∈ (derive df2).rows := paginate_rows_subset _ _ _ r' hr'
      obtain ⟨r0, hr0, hpres, hder⟩ := hC r' hr3
      have hpg : rowGet r' (stat ++ "_per_game") = perGameVal stat r0 :=
        hder stat hstat hstat2
      have h1 : rowGet r0 stat = Val.num v := by
        rw [← hpres stat (statsColumns_no_pg stat hstat)]
        exact hveq
      have h2 : rowGet r0 "gp" = Val.num g := by
        rw [← hpres "gp" gp_no_pg]
        exact hgeq
      have hmempg : stat ++ "_per_game" ∈ (paginate (derive df2) page psz).cols := by
        rw [hcols]
        exact hB stat hstat hstat2
      rw [if_pos ⟨hmempg, statsColumns_pg_ne_pid stat hstat⟩, hpg]
      unfold perGameVal
      rw [h1, h2]
      rfl
    · rw [if_neg hpid] at hok
      exact Except.noConfusion hok

/-- C3: in every career-stats output record in which a base stat of
`statsColumns` and `gp` both exist, the `{stat}_per_game` field equals
`round(stat / gp, 1)`. -/
theorem c3_per_game (pid : String) (season_type season : Option String)
    (page : Option Nat) (psz : Nat) (pt : PlayerTotals) (resp : CareerResp)
    (hok : get_player_career_stats pid season_type season page psz pt = Except.ok resp)
    (rec : Row) (hrec : rec ∈ resp.records)
    (stat : String) (hstat : stat ∈ statsColumns)
    (v g : ℚ) (hv : rowFind rec stat = some (Val.num v))
    (hg : rowFind rec "gp" = some (Val.num g)) :
    rowFind rec (stat ++ "_per_game") = some (Val.num (round1 (v / g))) := by
  unfold get_player_career_stats at hok
  by_cases hpid : pid = ""
  · rw [if_pos hpid] at hok
    exact Except.noConfusion hok
  · rw [if_neg hpid] at hok
    cases hsf : seasonFilter (lowerCols (selectDataset pt season season_type)) season with
    | error e =>
        rw [hsf] at hok
        exact Except.noConfusion hok
    | ok df2 =>
        rw [hsf] at hok
        exact careerAfterFilter_records _ _ _ _ _ _ hok rec hrec stat hstat v g hv hg

/-- The record emitted for `dfStats` by the career route. -/
def sampleRec : Row :=
  [("gp", Val.num 10), ("pts", Val.num 200), ("pts_per_game", Val.num 20)]

/-- The full career response for `dfStats`. -/
def sampleResp : CareerResp := ⟨"Regular Season", "totals", [sampleRec]⟩

/-- Witness for C3: 200 points in 10 games yields `pts_per_game = 20.0`. -/
theorem c3_per_game_witness :
    get_player_career_stats "2544" none none none 10 ptStats = Except.ok sampleResp ∧
    rowFind sampleRec ("pts" ++ "_per_game") = some (Val.num (round1 (200 / 10))) := by
  have hok : get_player_career_stats "2544" none none none 10 ptStats =
      Except.ok sampleResp := by
    with_unfolding_all rfl
  exact ⟨hok,
    c3_per_game "2544" none none none 10 ptStats sampleResp hok sampleRec
      (by with_unfolding_all decide) "pts" (by decide) 200 10
      (by with_unfolding_all decide) (by with_unfolding_all decide)⟩

/-- Reduction of the roster route at a given page: a zero page skips
pagination entirely, a positive page slices the post-limit list. -/
theorem get_players_page (a i al : List Player) (ia : Option Bool) (pn : Option String)
    (lim : Option Nat) (ps : Nat) (p : Nat) :
    get_players a i al ia pn lim (some p) ps =
      if p = 0 then get_players a i al ia pn lim none ps
      else ((get_players a i al ia pn lim none ps).drop ((p - 1) * ps)).take ps := rfl

/-- Reduction of the roster route at a given limit: a zero limit skips
truncation entirely, a positive limit takes a prefix. -/
theorem get_players_limit (a i al : List Player) (ia : Option Bool) (pn : Option String)
    (ps : Nat) (L : Nat) :
    get_players a i al ia pn (some L) none ps =
      if L = 0 then get_players a i al ia pn none none ps
      else (get_players a i al ia pn none none ps).take L := rfl

/-- C7 counterexample: with `page = 0` the roster route returns the
whole list, not the page-1 slice the claim prescribes. -/
theorem c7_page_zero_counterexample :
    get_players [] [] [⟨1, "LeBron James"⟩, ⟨2, "Stephen Curry"⟩] none none none (some 0) 1 ≠
      ((get_players [] [] [⟨1, "LeBron James"⟩, ⟨2, "Stephen Curry"⟩] none none none
          none 1).drop ((1 - 1) * 1)).take 1 := by
  decide

/-- C7 amended: a missing or zero page applies no pagination at all;
when `page ≥ 1` is given the result is the slice
`[(page-1)*pageSize, page*pageSize)` of the post-limit sequence, so a
post-limit sequence no longer than `(page-1)*pageSize` — in particular
one truncated by a small `limit` — yields an empty page. -/
theorem c7_pagination_amended (a i al : List Player) (ia : Option Bool)
    (pn : Option String) (lim : Option Nat) (ps : Nat) (p : Nat) (hp : 1 ≤ p) :
    get_players a i al ia pn lim (some p) ps =
      ((get_players a i al ia pn lim none ps).drop ((p - 1) * ps)).take ps ∧
    get_players a i al ia pn lim (some 0) ps = get_players a i al ia pn lim none ps ∧
    ((get_players a i al ia pn lim none ps).length ≤ (p - 1) * ps →
      get_players a i al ia pn lim (some p) ps = []) := by
  have hp0 : p ≠ 0 := by omega
  refine ⟨?_, ?_, ?_⟩
  · rw [get_players_page a i al ia pn lim ps p, if_neg hp0]
  · rw [get_players_page a i al ia pn lim ps 0, if_pos rfl]
  · intro hlen
    rw [get_players_page a i al ia pn lim ps p, if_neg hp0,
      List.drop_eq_nil_of_le hlen, List.take_nil]

/-- Witness for C7 as amended, at page 2 of page size 2 over 3 players. -/
theorem c7_pagination_amended_witness :
    (1 : Nat) ≤ 2 ∧
    get_players [] [] [⟨1, "A"⟩, ⟨2, "B"⟩, ⟨3, "C"⟩] none none none (some 2) 2 =
      ((get_players [] [] [⟨1, "A"⟩, ⟨2, "B"⟩, ⟨3, "C"⟩] none none none
          none 2).drop ((2 - 1) * 2)).take 2 :=
  ⟨by decide,
   (c7_pagination_amended [] [] [⟨1, "A"⟩, ⟨2, "B"⟩, ⟨3, "C"⟩] none none none 2 2
      (by decide)).1⟩

/-- C8 counterexample: `limit = 0` is falsy, so no truncation happens
and the result can be longer than the limit. -/
theorem c8_limit_zero_counterexample :
    ¬(get_players [] [] [⟨1, "LeBron James"⟩] none none (some 0) none 10).length ≤ 0 := by
  decide

/-- C8 amended: for every roster request with `limit = L ≥ 1` and no
page, the result has length at most `L` (a zero limit is ignored by the
code). -/
theorem c8_limit_amended (a i al : List Player) (ia : Option Bool) (pn : Option String)
    (ps : Nat) (L : Nat) (hL : 1 ≤ L) :
    (get_players a i al ia pn (some L) none ps).length ≤ L := by
  have hL0 : L ≠ 0 := by omega
  rw [get_players_limit a i al ia pn ps L, if_neg hL0]
  exact List.length_take_le _ _

/-- Witness for C8 as amended: limit 2 over 3 players. -/
theorem c8_limit_amended_witness :
    (1 : Nat) ≤ 2 ∧
    (get_players [] [] [⟨1, "A"⟩, ⟨2, "B"⟩, ⟨3, "C"⟩] none none (some 2) none 10).length ≤ 2 :=
  ⟨by decide,
   c8_limit_amended [] [] [⟨1, "A"⟩, ⟨2, "B"⟩, ⟨3, "C"⟩] none none 10 2 (by decide)⟩

/-- C9: with a valid player id and an empty upstream award list, the
awards route returns `""` (non-detailed) or `{summary: "", details: []}`
(detailed), and raises no error. -/
theorem c9_empty_awards (pid : Int) (hpid : pid ≠ 0) :
    fetch_player_awards (some pid) false [] = Except.ok (AwardsResp.plain "") ∧
    fetch_player_awards (some pid) true [] = Except.ok (AwardsResp.full "" []) := by
  have hcond : ¬((some pid : Option Int) = none ∨ (some pid : Option Int) = some 0) := by
    rintro (h | h)
    · exact Option.noConfusion h
    · exact hpid (Option.some.inj h)
  constructor <;> (unfold fetch_player_awards; rw [if_neg hcond]; rfl)

/-- Witness for C9 at player id 999. -/
theorem c9_empty_awards_witness :
    (999 : Int) ≠ 0 ∧
    fetch_player_awards (some 999) false [] = Except.ok (AwardsResp.plain "") ∧
    fetch_player_awards (some 999) true [] = Except.ok (AwardsResp.full "" []) :=
  ⟨by decide, (c9_empty_awards 999 (by decide)).1, (c9_empty_awards 999 (by decide)).2⟩

/-- C10: `player_id = 0` is rejected with HTTP 400
"Missing required parameter: player_id" exactly as when the parameter is
absent, because the guard tests falsiness; the result never depends on
the upstream award list, so no fetch is observable. -/
theorem c10_zero_player_id (detailed : Bool) (raw raw2 : List Row) :
    fetch_player_awards (some 0) detailed raw =
      Except.error (PyErr.http 400 "Missing required parameter: player_id") ∧
    fetch_player_awards none detailed raw =
      Except.error (PyErr.http 400 "Missing required parameter: player_id") ∧
    fetch_player_awards (some 0) detailed raw = fetch_player_awards none detailed raw2 :=
  ⟨rfl, rfl, rfl⟩

/-- An empty frame. -/
def emptyDF : DataFrame := ⟨[], []⟩

/-- A one-row frame whose `gp` column sums to zero. -/
def gpZeroDF : DataFrame := ⟨["gp"], [[("gp", Val.num 0)]]⟩

/-- C5 (code bug): the advanced-stats guard
`not df or "gp" not in df.columns or df["gp"].sum() == 0` evaluates
`bool()` of a pandas DataFrame on the `season == "All"` path, which
raises `ValueError`, and reads `.columns` of a *list* of frames on the
non-`"All"` path, which raises `AttributeError`; only an empty
year-over-year frame list actually reaches the empty-`stats` response.
So the route errors (HTTP 500) instead of degrading to `stats: []`. -/
theorem c5_advanced_truthiness :
    get_player_advanced_stats 1 "Totals" (some "All") "Regular Season" gpZeroDF [] =
      Except.error (PyErr.valueError "The truth value of a DataFrame is ambiguous") ∧
    get_player_advanced_stats 1 "Totals" (some "2022-23") "Regular Season" emptyDF [gpZeroDF] =
      Except.error (PyErr.attributeError "list object has no attribute columns") ∧
    get_player_advanced_stats 1 "Totals" (some "2022-23") "Regular Season" emptyDF [] =
      Except.ok ⟨1, "Totals", "2022-23", "Regular Season", []⟩ :=
  ⟨rfl, rfl, rfl⟩

/-- Ordered insertion permutes: `insSorted x l` has the elements of
`x :: l`. -/
theorem insSorted_perm (x : String × Nat) (l : List (String × Nat)) :
    List.Perm (insSorted x l) (x :: l) := by
  induction l with
  | nil => exact List.Perm.refl _
  | cons y ys ih =>
      unfold insSorted
      by_cases h : pairLt x y = true
      · rw [if_pos h]
      · rw [if_neg h]
        exact (ih.cons y).trans (List.Perm.swap x y ys)

/-- The summary sort permutes the counter list. -/
theorem sortPairs_perm (l : List (String × Nat)) :
    List.Perm (sortPairs l) l := by
  induction l with
  | nil => exact List.Perm.refl _
  | cons x xs ih =>
      have h1 : sortPairs (x :: xs) = insSorted x (sortPairs xs) := rfl
      rw [h1]
      exact (insSorted_perm x (sortPairs xs)).trans (ih.cons x)

/-- Asymmetry of the code-point comparison: a list cannot be strictly
below another in both directions. -/
theorem charsLt_asymm : ∀ xs ys : List Char, charsLt xs ys = true → charsLt ys xs = false := by
  intro xs
  induction xs with
  | nil =>
      intro ys h
      cases ys with
      | nil => simp [charsLt] at h
      | cons y ys' => simp [charsLt]
  | cons x xs' ih =>
      intro ys h
      cases ys with
      | nil => simp [charsLt] at h
      | cons y ys' =>
          simp only [charsLt, Bool.or_eq_true, Bool.and_eq_true, decide_eq_true_eq] at h
          rcases h with h | ⟨heq, hlt⟩
          · have h1 : ¬y.toNat < x.toNat := by omega
            have h2 : ¬y.toNat = x.toNat := by omega
            simp [charsLt, h1, h2]
          · have h1 : ¬y.toNat < x.toNat := by omega
            simp [charsLt, h1, heq.symm, ih ys' hlt]

/-- Transitivity of the code-point comparison. -/
theorem charsLt_trans : ∀ xs ys zs : List Char,
    charsLt xs ys = true → charsLt ys zs = true → charsLt xs zs = true := by
  intro xs
  induction xs with
  | nil =>
      intro ys zs h1 h2
      cases ys with
      | nil => simp [charsLt] at h1
      | cons y ys' =>
          cases zs with
          | nil => simp [charsLt] at h2
          | cons z zs' => simp [charsLt]
  | cons x xs' ih =>
      intro ys zs h1 h2
      cases ys with
      | nil => simp [charsLt] at h1
      | cons y ys' =>
          cases zs with
          | nil => simp [charsLt] at h2
          | cons z zs' =>
              simp only [charsLt, Bool.or_eq_true, Bool.and_eq_true,
                decide_eq_true_eq] at h1 h2 ⊢
              rcases h1 with h1 | ⟨he1, hl1⟩
              · rcases h2 with h2 | ⟨he2, hl2⟩
                · exact Or.inl (by omega)
                · exact Or.inl (by omega)
              · rcases h2 with h2 | ⟨he2, hl2⟩
                · exact Or.inl (by omega)
                · exact Or.inr ⟨by omega, ih ys' zs' hl1 hl2⟩

/-- Asymmetry of the string comparison. -/
theorem strLtB_asymm (a b : String) (h : strLtB a b = true) : strLtB b a = false :=
  charsLt_asymm _ _ h

/-- Transitivity of the string comparison. -/
theorem strLtB_trans (a b c : String) (h1 : strLtB a b = true) (h2 : strLtB b c = true) :
    strLtB a c = true :=
  charsLt_trans _ _ _ h1 h2

/-- The claimed ordering of adjacent summary tokens: the earlier entry
has a strictly larger count, or an equal count and a category name that
is not lexicographically greater. -/
def summaryOrder (a b : String × Nat) : Prop :=
  b.2 < a.2 ∨ (a.2 = b.2 ∧ strLtB b.1 a.1 = false)

/-- A failed `pairLt x y` test puts `y` before `x` in the summary
order. -/
theorem summaryOrder_of_pairLt_false (x y : String × Nat) (h : pairLt x y = false) :
    summaryOrder y x := by
  simp only [pairLt, Bool.or_eq_false_iff, Bool.and_eq_false_iff,
    decide_eq_false_iff_not] at h
  unfold summaryOrder
  by_cases he : x.2 = y.2
  · exact Or.inr ⟨he.symm, h.2.resolve_left (fun hn => hn he)⟩
  · exact Or.inl (by rcases h with ⟨h1, _⟩; omega)

/-- A successful `pairLt x y` test puts `x` before `y` in the summary
order. -/
theorem summaryOrder_of_pairLt_true (x y : String × Nat) (h : pairLt x y = true) :
    summaryOrder x y := by
  simp only [pairLt, Bool.or_eq_true, Bool.and_eq_true, decide_eq_true_eq] at h
  unfold summaryOrder
  rcases h with h | ⟨he, hl⟩
  · exact Or.inl h
  · exact Or.inr ⟨he, strLtB_asymm _ _ hl⟩

/-- `pairLt` composes with the summary order on its right. -/
theorem summaryOrder_of_pairLt_trans (x y z : String × Nat) (h : pairLt x y = true)
    (hyz : summaryOrder y z) : summaryOrder x z := by
  simp only [pairLt, Bool.or_eq_true, Bool.and_eq_true, decide_eq_true_eq] at h
  unfold summaryOrder at hyz ⊢
  rcases h with h | ⟨he, hl⟩
  · rcases hyz with h2 | ⟨he2, hl2⟩
    · exact Or.inl (by omega)
    · exact Or.inl (by omega)
  · rcases hyz with h2 | ⟨he2, hl2⟩
    · exact Or.inl (by omega)
    · refine Or.inr ⟨by omega, ?_⟩
      by_contra hc
      have hc' : strLtB z.1 x.1 = true := by
        revert hc
        cases strLtB z.1 x.1 <;> simp
      have hzy := strLtB_trans _ _ _ hc' hl
      simp [hzy] at hl2

/-- Ordered insertion preserves sortedness in the summary order. -/
theorem pairwise_insSorted (x : String × Nat) :
    ∀ l, List.Pairwise summaryOrder l → List.Pairwise summaryOrder (insSorted x l) := by
  intro l
  induction l with
  | nil =>
      intro _
      simp [insSorted]
  | cons y ys ih =>
      intro hp
      rw [List.pairwise_cons] at hp
      obtain ⟨hy, hys⟩ := hp
      unfold insSorted
      by_cases h : pairLt x y = true
      · rw [if_pos h, List.pairwise_cons]
        refine ⟨?_, List.pairwise_cons.mpr ⟨hy, hys⟩⟩
        intro z hz
        rcases List.mem_cons.mp hz with rfl | hz'
        · exact summaryOrder_of_pairLt_true x z h
        · exact summaryOrder_of_pairLt_trans x y z h (hy z hz')
      · rw [if_neg h, List.pairwise_cons]
        have hf : pairLt x y = false := by
          revert h
          cases pairLt x y <;> simp
        refine ⟨?_, ih hys⟩
        intro z hz
        have hz' := (insSorted_perm x ys).mem_iff.mp hz
        rcases List.mem_cons.mp hz' with rfl | hz''
        · exact summaryOrder_of_pairLt_false z y hf
        · exact hy z hz''

/-- The summary sort output is sorted by descending count with ties
broken by ascending lexicographic category name. -/
theorem sortPairs_sorted (l : List (String × Nat)) :
    List.Pairwise summaryOrder (sortPairs l) := by
  induction l with
  | nil => simp [sortPairs]
  | cons x xs ih => exact pairwise_insSorted x (sortPairs xs) ih

/-- C6: award descriptions are categorized by the first matching
priority rule (All-Defensive, then All-Star, then Player of the Week,
then Gold Medal, then the raw description); the rendered counter list
is a permutation of the accumulated counts, sorted by descending count
with ties broken by ascending lexicographic category name
(`summaryOrder`); the non-detailed route answers exactly the rendering
of those sorted counts; the example list with two All-Star selections
and one MVP renders as "2 NBA All-Star | 1 NBA Most Valuable Player";
and a tied example renders in ascending name order. -/
theorem c6_award_summary :
    (∀ d, strContains d "All-Defensive" = true → awardType d = "All-Defensive Team") ∧
    (∀ d, strContains d "All-Defensive" = false → strContains d "All-Star" = true →
      awardType d = "NBA All-Star") ∧
    (∀ d, strContains d "All-Defensive" = false → strContains d "All-Star" = false →
      strContains d "Player of the Week" = true → awardType d = "NBA Player of the Week") ∧
    (∀ d, strContains d "All-Defensive" = false → strContains d "All-Star" = false →
      strContains d "Player of the Week" = false → strContains d "Gold Medal" = true →
      awardType d = "Olympic Gold Medal") ∧
    (∀ d, strContains d "All-Defensive" = false → strContains d "All-Star" = false →
      strContains d "Player of the Week" = false → strContains d "Gold Medal" = false →
      awardType d = d) ∧
    (∀ counts : List (String × Nat), List.Perm (sortPairs counts) counts) ∧
    (∀ counts : List (String × Nat), List.Pairwise summaryOrder (sortPairs counts)) ∧
    (∀ pid : Int, pid ≠ 0 → ∀ raw : List Row, raw ≠ [] →
      fetch_player_awards (some pid) false raw =
        Except.ok (AwardsResp.plain (renderSummary (awardCounts raw)))) ∧
    fetch_player_awards (some 1) false
      [[("description", Val.str "All-Star Selection")],
       [("description", Val.str "All-Star Selection")],
       [("description", Val.str "NBA Most Valuable Player")]] =
      Except.ok (AwardsResp.plain "2 NBA All-Star | 1 NBA Most Valuable Player") ∧
    fetch_player_awards (some 1) false
      [[("description", Val.str "NBA Most Valuable Player")],
       [("description", Val.str "All-Star Selection")]] =
      Except.ok (AwardsResp.plain "1 NBA All-Star | 1 NBA Most Valuable Player") := by
  refine ⟨?_, ?_, ?_, ?_, ?_, sortPairs_perm, sortPairs_sorted, ?_, ?_, ?_⟩
  · intro d h1
    simp [awardType, h1]
  · intro d h1 h2
    simp [awardType, h1, h2]
  · intro d h1 h2 h3
    simp [awardType, h1, h2, h3]
  · intro d h1 h2 h3 h4
    simp [awardType, h1, h2, h3, h4]
  · intro d h1 h2 h3 h4
    simp [awardType, h1, h2, h3, h4]
  · intro pid hpid raw hraw
    have hcond : ¬((some pid : Option Int) = none ∨ (some pid : Option Int) = some 0) := by
      rintro (h | h)
      · exact Option.noConfusion h
      · exact hpid (Option.some.inj h)
    unfold fetch_player_awards
    rw [if_neg hcond, if_neg hraw]
    rfl
  · with_unfolding_all rfl
  · with_unfolding_all rfl

/-- Witness for C6: one description through each priority rule, the
sortedness of a concrete tied counter list, and the route answering the
rendered summary for a concrete award list. -/
theorem c6_award_summary_witness :
    awardType "All-Defensive First Team" = "All-Defensive Team" ∧
    awardType "All-Star Selection" = "NBA All-Star" ∧
    awardType "Player of the Week" = "NBA Player of the Week" ∧
    awardType "Olympic Gold Medal" = "Olympic Gold Medal" ∧
    awardType "NBA Most Valuable Player" = "NBA Most Valuable Player" ∧
    List.Pairwise summaryOrder (sortPairs [("b", 1), ("a", 1), ("c", 2)]) ∧
    fetch_player_awards (some 7) false [[("description", Val.str "Rookie of the Year")]] =
      Except.ok (AwardsResp.plain
        (renderSummary (awardCounts [[("description", Val.str "Rookie of the Year")]]))) :=
  ⟨c6_award_summary.1 _ (by decide),
   c6_award_summary.2.1 _ (by decide) (by decide),
   c6_award_summary.2.2.1 _ (by decide) (by decide) (by decide),
   c6_award_summary.2.2.2.1 _ (by decide) (by decide) (by decide) (by decide),
   c6_award_summary.2.2.2.2.1 _ (by decide) (by decide) (by decide) (by decide),
   c6_award_summary.2.2.2.2.2.2.1 [("b", 1), ("a", 1), ("c", 2)],
   c6_award_summary.2.2.2.2.2.2.2.1 7 (by decide) _ (by decide)⟩
